import Mathlib

/-!
Shallow embedding of the Pake shell (`src/src-tauri/src/main.rs`) for checking
the natural-language specification against the code.

Modelling conventions:
* Rust `f64` fields (`width`, `height`, scale factors, logical sizes) are
  modelled as exact rationals `ℚ`; finite doubles round-trip exactly through
  the JSON layer used by the code, so rational arithmetic is faithful for the
  properties below.
* Rust `i32` is modelled as `Int`; where the code performs the `u32 as i32`
  conversion (`MonitorExt::contains`) the wrap is modelled explicitly.
* The file system is a pair of (existing directories, file path ↦ JSON
  content); `serde_json` serialization is modelled as producing a JSON value
  rather than a byte string.
* Fallible operations return `Except String _`; a Rust `panic!`/`unwrap`/
  `expect` (which terminates the process) is modelled as a distinguished
  `panicked` outcome.
-/

namespace Pake

/-- The persisted record (struct `WindowState`, main.rs lines 48-58).
Rust field types: `width height : f64`, `x y : i32`, four `bool`s. -/
structure WindowState where
  width : ℚ
  height : ℚ
  x : Int
  y : Int
  maximized : Bool
  visible : Bool
  decorated : Bool
  fullscreen : Bool
deriving DecidableEq, Repr

/-- `#[derive(Default)]` on `WindowState`: zero sizes/positions, all flags false. -/
def WindowState.defaultState : WindowState :=
  { width := 0, height := 0, x := 0, y := 0,
    maximized := false, visible := false, decorated := false, fullscreen := false }

/-- The range of Rust `i32`, which the struct's typing imposes on `x` and `y`. -/
def isI32 (v : Int) : Prop := -(2 ^ 31) ≤ v ∧ v < 2 ^ 31

instance (v : Int) : Decidable (isI32 v) := by unfold isI32; infer_instance

/-- JSON values, the serialization target of `serde_json` as used by the code.
Arrays are irrelevant to every operation here and are omitted. -/
inductive Json where
  | null : Json
  | bool : Bool → Json
  | num : ℚ → Json
  | str : String → Json
  | obj : List (String × Json) → Json

/-- `serde_json::to_string(&state)` (main.rs line 308): the record serialized
field by field in declaration order. -/
def serializeWindowState (s : WindowState) : Json :=
  .obj [("width", .num s.width), ("height", .num s.height),
        ("x", .num (s.x : ℚ)), ("y", .num (s.y : ℚ)),
        ("maximized", .bool s.maximized), ("visible", .bool s.visible),
        ("decorated", .bool s.decorated), ("fullscreen", .bool s.fullscreen)]

/-- Field access during deserialization: a missing field is a parse error. -/
def jGet (fields : List (String × Json)) (k : String) : Except String Json :=
  match fields.lookup k with
  | some v => .ok v
  | none => .error ("missing field " ++ k)

/-- Deserializing an `f64` field: any JSON number is accepted. -/
def jNum : Json → Except String ℚ
  | .num q => .ok q
  | _ => .error "invalid type: expected number"

/-- Deserializing a `bool` field. -/
def jBool : Json → Except String Bool
  | .bool b => .ok b
  | _ => .error "invalid type: expected boolean"

/-- Deserializing an `i32` field: the number must be an integer in i32 range. -/
def jI32 : Json → Except String Int
  | .num q =>
      if q.den = 1 ∧ isI32 q.num then .ok q.num
      else .error "invalid value: expected i32"
  | _ => .error "invalid type: expected i32"

/-- `serde_json::from_reader::<_, WindowState>` (main.rs line 111): all eight
fields are required; wrong shapes are parse errors. -/
def parseWindowState : Json → Except String WindowState
  | .obj fields => do
      let width ← jNum (← jGet fields "width")
      let height ← jNum (← jGet fields "height")
      let x ← jI32 (← jGet fields "x")
      let y ← jI32 (← jGet fields "y")
      let maximized ← jBool (← jGet fields "maximized")
      let visible ← jBool (← jGet fields "visible")
      let decorated ← jBool (← jGet fields "decorated")
      let fullscreen ← jBool (← jGet fields "fullscreen")
      .ok ⟨width, height, x, y, maximized, visible, decorated, fullscreen⟩
  | _ => .error "invalid type: expected object"

/-- The file system visible to the Persisted State Store: the set of existing
directories and a map from file path to (JSON) content. -/
structure FS where
  dirs : List String
  files : List (String × Json)

/-- `path.exists()` / `File::open` for state files: the content at a path. -/
def fileAt (fs : FS) (p : String) : Option Json := fs.files.lookup p

/-- Persisted State Store `load` (main.rs lines 109-115): `None` when no file
exists at the path; otherwise the content is parsed, and a parse failure
propagates out of `main` via `?` (a fatal startup error). -/
def load (fs : FS) (p : String) : Except String (Option WindowState) :=
  match fileAt fs p with
  | some j => (parseWindowState j).map some
  | none => .ok none

/-- Persisted State Store `save` (main.rs lines 304-311): `create_dir_all` on
the app directory (a no-op when it already exists), then `File::create` +
`write_all` of the serialized record, overwriting prior content. -/
def save (fs : FS) (dir filePath : String) (s : WindowState) : FS :=
  { dirs := if dir ∈ fs.dirs then fs.dirs else dir :: fs.dirs,
    files := (filePath, serializeWindowState s) :: fs.files }

/-- A monitor as the code queries it: `position : PhysicalPosition<i32>`,
`size : PhysicalSize<u32>`, `scale_factor : f64`. -/
structure Monitor where
  posX : Int
  posY : Int
  sizeW : Nat
  sizeH : Nat
  scaleFactor : ℚ
deriving DecidableEq, Repr

/-- Rust's `u32 as i32` conversion: wrap into the i32 range. -/
def u32AsI32 (n : Nat) : Int :=
  if n % 2 ^ 32 < 2 ^ 31 then ((n % 2 ^ 32 : Nat) : Int)
  else ((n % 2 ^ 32 : Nat) : Int) - 2 ^ 32

/-- `MonitorExt::contains` (main.rs lines 371-381): the corner lies strictly
inside the monitor rectangle, with the monitor size cast `as i32`. -/
def Monitor.contains (m : Monitor) (px py : Int) : Bool :=
  decide (m.posX < px) && decide (px < m.posX + u32AsI32 m.sizeW) &&
  decide (m.posY < py) && decide (py < m.posY + u32AsI32 m.sizeH)

/-- The live window/webview values the close handler queries (main.rs lines
272-302): mode flags, current monitor, physical inner size (`u32`), and the
inner position (`inner_position().unwrap()`, assumed available). -/
structure Snapshot where
  isMaximized : Bool
  isFullscreen : Bool
  isDecorated : Bool
  isVisible : Bool
  currentMonitor : Option Monitor
  innerW : Nat
  innerH : Nat
  posX : Int
  posY : Int
deriving DecidableEq, Repr

/-- The record built by the close handler (main.rs lines 273-302): start from
the derived default, copy the four mode flags from the live window, then the
bounds policy: logical size only if strictly positive and not maximized;
position only if the current monitor exists, contains the corner, and the
window is not maximized. -/
def closeState (snap : Snapshot) : WindowState :=
  let st0 : WindowState :=
    { WindowState.defaultState with
      maximized := snap.isMaximized
      fullscreen := snap.isFullscreen
      decorated := snap.isDecorated
      visible := snap.isVisible }
  let scaleFactor : ℚ := (snap.currentMonitor.map Monitor.scaleFactor).getD 1
  let logW : ℚ := (snap.innerW : ℚ) / scaleFactor
  let logH : ℚ := (snap.innerH : ℚ) / scaleFactor
  let st1 :=
    if decide (0 < logW) && decide (0 < logH) && !snap.isMaximized
    then { st0 with width := logW, height := logH } else st0
  match snap.currentMonitor with
  | some m =>
      if m.contains snap.posX snap.posY && !snap.isMaximized
      then { st1 with x := snap.posX, y := snap.posY } else st1
  | none => st1

/-- The position-persistence condition of the bounds policy (main.rs lines
296-302), named for the characterization lemmas. -/
def persistsPosition (snap : Snapshot) : Bool :=
  match snap.currentMonitor with
  | some m => m.contains snap.posX snap.posY && !snap.isMaximized
  | none => false

/-- The size-persistence condition of the bounds policy (main.rs line 289). -/
def persistsSize (snap : Snapshot) : Bool :=
  let scaleFactor : ℚ := (snap.currentMonitor.map Monitor.scaleFactor).getD 1
  decide (0 < (snap.innerW : ℚ) / scaleFactor) &&
  decide (0 < (snap.innerH : ℚ) / scaleFactor) && !snap.isMaximized

/-- The `CloseRequested` arm of the event loop (main.rs lines 268-315): the
state is built and saved only under the guard `app_dir.exists()`; when the
app directory does not exist nothing is written. Save failures abort the
process (`expect`) and are not modelled as reachable outcomes. -/
def onCloseRequested (fs : FS) (appDir statePath : String) (snap : Snapshot) : FS :=
  if appDir ∈ fs.dirs then save fs appDir statePath (closeState snap) else fs

/-- The per-window config defaults consumed at startup (`WindowConfig`). -/
structure ConfigWindow where
  width : ℚ
  height : ℚ
  fullscreen : Bool
deriving DecidableEq, Repr

/-- Argument of `window.set_fullscreen(Some(..))`: the code only ever builds
`Fullscreen::Borderless(current_monitor())`, monitor possibly absent. -/
inductive FullscreenArg where
  | borderless : Option Monitor → FullscreenArg
deriving DecidableEq, Repr

/-- The two window mutations performed by the startup reconciliation. -/
structure ReconcileEffect where
  setFullscreen : Option FullscreenArg
  setInnerSize : ℚ × ℚ
deriving DecidableEq, Repr

/-- Geometry Reconciler (main.rs lines 158-176): with persisted state, honor
`state.fullscreen` and set the logical inner size to the persisted
width/height unconditionally; without state, honor the config flag and the
config size. `setFullscreen = none` is windowed mode (`set_fullscreen(None)`). -/
def reconcile (windowState : Option WindowState) (cfg : ConfigWindow)
    (currentMonitor : Option Monitor) : ReconcileEffect :=
  match windowState with
  | some st =>
      { setFullscreen :=
          if st.fullscreen then some (.borderless currentMonitor) else none
        setInnerSize := (st.width, st.height) }
  | none =>
      { setFullscreen :=
          if cfg.fullscreen then some (.borderless currentMonitor) else none
        setInnerSize := (cfg.width, cfg.height) }

/-- Rust `str::starts_with` on strings. -/
def rustStartsWith (s pat : String) : Bool := pat.toList.isPrefixOf s.toList

/-- One left-to-right pass replacing each non-overlapping occurrence of `pat`
by `rep`, the semantics of Rust `str::replace`. Structural recursion on a
fuel argument so the kernel can evaluate it; every step consumes at least one
character, so fuel equal to the list length (as supplied by `rustReplace`)
never runs out. -/
def replaceList (pat rep : List Char) : Nat → List Char → List Char
  | _, [] => []
  | 0, rest => rest
  | fuel + 1, c :: rest =>
      if pat.isPrefixOf (c :: rest) then
        rep ++ replaceList pat rep fuel (rest.drop (pat.length - 1))
      else
        c :: replaceList pat rep fuel rest

/-- Rust `str::replace` on strings. -/
def rustReplace (s pat rep : String) : String :=
  ⟨replaceList pat.toList rep.toList s.toList.length s.toList⟩

/-- Outcome of one IPC request dispatch. `panicked` models a process-aborting
Rust panic (`expect`). -/
inductive IpcEffect where
  | dragWindow : IpcEffect
  | setMaximized : Bool → IpcEffect
  | openBrowser : String → IpcEffect
  | panicked : String → IpcEffect
  | ignored : IpcEffect
deriving DecidableEq, Repr

/-- The IPC `handler` closure (main.rs lines 179-189). `isMaximized` is the
live `window.is_maximized()` read in the `fullscreen` arm; `browserOpens`
says whether `webbrowser::open` succeeds (its failure hits
`.expect("no browser")`). Note: the branch tests `starts_with("open_browser")`
— no colon — and the URI is `req.replace("open_browser:", "")`, which removes
every occurrence of the pattern, not just a leading one. -/
def handler (isMaximized browserOpens : Bool) (req : String) : IpcEffect :=
  if req = "drag_window" then .dragWindow
  else if req = "fullscreen" then .setMaximized (!isMaximized)
  else if rustStartsWith req "open_browser" then
    let href := rustReplace req "open_browser:" ""
    if browserOpens then .openBrowser href else .panicked "no browser"
  else .ignored

/-- `PathBuf::join` for the relative suggested filenames passed here. -/
def joinPath (dir file : String) : String := dir ++ "/" ++ file

/-- Outcome of one invocation of the download-start callback. `panicked`
models a process-aborting Rust panic. -/
inductive DownloadStartResult where
  | panicked : String → DownloadStartResult
  | resolved : String → String × String → Bool → DownloadStartResult
deriving DecidableEq, Repr

/-- The `download_started` closure (main.rs lines 191-205): resolve the
platform downloads directory with `.unwrap()` — a panic when it is `None` —
then join the suggested path, write it back to the caller, and relay a
`DownloadStarted(uri, path)` event; the send result is swallowed into the
returned `submitted` flag. `resolved path event submitted` carries the
rewritten destination path, the relayed event payload, and that flag. -/
def download_started (downloadDir : Option String) (uri : String)
    (defaultPath : String) (sendSucceeds : Bool) : DownloadStartResult :=
  match downloadDir with
  | none => .panicked "called Option::unwrap on a None value"
  | some dir =>
      let path := joinPath dir defaultPath
      .resolved path (uri, path) sendSucceeds

theorem parse_serialize (s : WindowState) (hx : isI32 s.x) (hy : isI32 s.y) :
    parseWindowState (serializeWindowState s) = .ok s := by
  simp [parseWindowState, serializeWindowState, jGet, List.lookup, jNum, jBool, jI32,
    Rat.den_intCast, Rat.num_intCast, hx, hy, Bind.bind, Except.bind]

theorem u32AsI32_le (n : Nat) : u32AsI32 n ≤ (n : Int) := by
  unfold u32AsI32
  have h := Nat.mod_le n (2 ^ 32)
  split <;> omega

theorem closeState_pos (snap : Snapshot) :
    (closeState snap).x = (if persistsPosition snap then snap.posX else 0) ∧
    (closeState snap).y = (if persistsPosition snap then snap.posY else 0) := by
  obtain ⟨mH, fH, dH, vH, mon, w, h, px, py⟩ := snap
  simp only [closeState, persistsPosition]
  cases mon <;> dsimp only <;> split_ifs <;> simp_all [WindowState.defaultState]

theorem closeState_size (snap : Snapshot) :
    (closeState snap).width =
      (if persistsSize snap then
        (snap.innerW : ℚ) / (snap.currentMonitor.map Monitor.scaleFactor).getD 1 else 0) ∧
    (closeState snap).height =
      (if persistsSize snap then
        (snap.innerH : ℚ) / (snap.currentMonitor.map Monitor.scaleFactor).getD 1 else 0) := by
  obtain ⟨mH, fH, dH, vH, mon, w, h, px, py⟩ := snap
  simp only [closeState, persistsSize]
  cases mon <;> dsimp only <;> split_ifs <;> simp_all [WindowState.defaultState]

/-- C1: for every `WindowState` record with strictly positive width and
height (and `x`, `y` in i32 range, as the Rust struct's typing imposes),
Persisted State Store `save` followed by `load` at the state path yields the
record that was saved. -/
theorem C1_save_load_roundtrip (fs : FS) (dir p : String) (s : WindowState)
    (_hw : 0 < s.width) (_hh : 0 < s.height) (hx : isI32 s.x) (hy : isI32 s.y) :
    load (save fs dir p s) p = .ok (some s) := by
  simp [load, save, fileAt, List.lookup, parse_serialize s hx hy, Except.map]

/-- C1 witness: the round trip evaluated on a concrete record. -/
theorem C1_save_load_roundtrip_witness :
    load (save ⟨[], []⟩ "cfg-app" "cfg-app/.window-state"
        ⟨800, 600, 100, 50, false, true, true, false⟩) "cfg-app/.window-state" =
      .ok (some ⟨800, 600, 100, 50, false, true, true, false⟩) :=
  C1_save_load_roundtrip _ _ _ _ (by decide) (by decide) (by decide) (by decide)

/-- C2: `load` returns `None` exactly when no file exists at the path, and
when a file exists whose content fails to parse, `load` propagates the parse
error (fatal at startup), never turning it into `None`. -/
theorem C2_absence_vs_corruption (fs : FS) (p : String) :
    (load fs p = .ok none ↔ fileAt fs p = none) ∧
    (∀ j e, fileAt fs p = some j → parseWindowState j = .error e →
      load fs p = .error e) := by
  refine ⟨⟨?_, ?_⟩, ?_⟩
  · intro h
    cases hf : fileAt fs p with
    | none => rfl
    | some j =>
      cases hp : parseWindowState j <;> simp [load, hf, hp, Except.map] at h
  · intro h
    simp [load, h]
  · intro j e hf hp
    simp [load, hf, hp, Except.map]

/-- C2 witness: a path with no file loads as `None`; a path holding a JSON
string that is not a `WindowState` object loads as a parse error. -/
theorem C2_absence_vs_corruption_witness :
    load ⟨[], []⟩ ".window-state" = .ok none ∧
    load ⟨[], [(".window-state", .str "garbage")]⟩ ".window-state" =
      .error "invalid type: expected object" :=
  ⟨(C2_absence_vs_corruption ⟨[], []⟩ ".window-state").1.mpr rfl,
   (C2_absence_vs_corruption ⟨[], [(".window-state", .str "garbage")]⟩
       ".window-state").2 (.str "garbage") "invalid type: expected object" rfl rfl⟩

/-- C3 counterexample: a clean shutdown with the application config directory
absent writes nothing — the close handler is guarded by `app_dir.exists()`
(main.rs line 272), so no state file appears at the state path, contradicting
the claim that one is written even when the directory does not yet exist. -/
theorem C3_no_save_without_dir_counterexample :
    onCloseRequested ⟨[], []⟩ "cfg-app" "cfg-app/.window-state"
        ⟨false, false, true, true, some ⟨0, 0, 1920, 1080, 1⟩, 800, 600, 100, 50⟩ =
      (⟨[], []⟩ : FS) ∧
    fileAt (onCloseRequested ⟨[], []⟩ "cfg-app" "cfg-app/.window-state"
        ⟨false, false, true, true, some ⟨0, 0, 1920, 1080, 1⟩, 800, 600, 100, 50⟩)
      "cfg-app/.window-state" = none := by
  constructor <;> rfl

/-- C3 (amended): on a window-close signal the handler saves the
bounds-policy record at the state path only when the application config
directory already exists at close time (directory creation inside `save` is
then a no-op); when the directory does not exist, the file system is left
unchanged and no state file is written. -/
theorem C3_close_saves_only_when_dir_exists (fs : FS) (appDir statePath : String)
    (snap : Snapshot) :
    (appDir ∈ fs.dirs →
      onCloseRequested fs appDir statePath snap =
        save fs appDir statePath (closeState snap)) ∧
    (appDir ∉ fs.dirs → onCloseRequested fs appDir statePath snap = fs) := by
  constructor <;> intro h <;> simp [onCloseRequested, h]

/-- C3 witness: both arms of the amended claim at concrete inputs. -/
theorem C3_close_saves_only_when_dir_exists_witness :
    (onCloseRequested ⟨["cfg-app"], []⟩ "cfg-app" "cfg-app/.window-state"
        ⟨false, false, true, true, some ⟨0, 0, 1920, 1080, 1⟩, 800, 600, 100, 50⟩ =
      save ⟨["cfg-app"], []⟩ "cfg-app" "cfg-app/.window-state"
        (closeState
          ⟨false, false, true, true, some ⟨0, 0, 1920, 1080, 1⟩, 800, 600, 100, 50⟩)) ∧
    (onCloseRequested ⟨["other"], []⟩ "cfg-app" "cfg-app/.window-state"
        ⟨false, false, true, true, some ⟨0, 0, 1920, 1080, 1⟩, 800, 600, 100, 50⟩ =
      ⟨["other"], []⟩) :=
  ⟨(C3_close_saves_only_when_dir_exists ⟨["cfg-app"], []⟩ "cfg-app"
      "cfg-app/.window-state" _).1 (by simp),
   (C3_close_saves_only_when_dir_exists ⟨["other"], []⟩ "cfg-app"
      "cfg-app/.window-state" _).2 (by simp)⟩

/-- C4: whenever the live window is maximized at close time, the record built
by the close handler keeps the zero-valued defaults in its width, height, x
and y fields, whatever the live geometry is. -/
theorem C4_maximized_suppression (snap : Snapshot) (h : snap.isMaximized = true) :
    (closeState snap).width = 0 ∧ (closeState snap).height = 0 ∧
    (closeState snap).x = 0 ∧ (closeState snap).y = 0 := by
  have hp := closeState_pos snap
  have hs := closeState_size snap
  have hpp : persistsPosition snap = false := by
    unfold persistsPosition
    obtain ⟨mH, fH, dH, vH, mon, w, ht, px, py⟩ := snap
    cases mon <;> simp_all
  have hss : persistsSize snap = false := by
    unfold persistsSize
    simp [h]
  exact ⟨by simp [hs.1, hss], by simp [hs.2, hss], by simp [hp.1, hpp],
    by simp [hp.2, hpp]⟩

/-- C4 witness: a maximized window at 800×600 logical size, corner (100, 50)
inside a 1920×1080 monitor, still persists all-default geometry. -/
theorem C4_maximized_suppression_witness :
    (closeState ⟨true, false, true, true, some ⟨0, 0, 1920, 1080, 1⟩,
        800, 600, 100, 50⟩).width = 0 ∧
    (closeState ⟨true, false, true, true, some ⟨0, 0, 1920, 1080, 1⟩,
        800, 600, 100, 50⟩).height = 0 ∧
    (closeState ⟨true, false, true, true, some ⟨0, 0, 1920, 1080, 1⟩,
        800, 600, 100, 50⟩).x = 0 ∧
    (closeState ⟨true, false, true, true, some ⟨0, 0, 1920, 1080, 1⟩,
        800, 600, 100, 50⟩).y = 0 :=
  C4_maximized_suppression _ rfl

/-- C5: the record's position equals the live corner exactly under the
position-persistence condition and keeps the default 0 otherwise; whenever
the condition holds, the window is not maximized and the corner is strictly
inside the current monitor (strictly between origin and origin plus size,
with the size read as `u32`); a corner on the monitor's edge, and in
particular at `(Mx - 1, My)` for a monitor at `(Mx, My)`, is never
persisted. -/
theorem C5_position_persistence (snap : Snapshot) (m : Monitor)
    (hm : snap.currentMonitor = some m) :
    (persistsPosition snap = true →
      snap.isMaximized = false ∧
      m.posX < snap.posX ∧ snap.posX < m.posX + (m.sizeW : Int) ∧
      m.posY < snap.posY ∧ snap.posY < m.posY + (m.sizeH : Int)) ∧
    ((closeState snap).x = if persistsPosition snap then snap.posX else 0) ∧
    ((closeState snap).y = if persistsPosition snap then snap.posY else 0) ∧
    ((snap.posX = m.posX ∨ snap.posY = m.posY ∨
        (snap.posX = m.posX - 1 ∧ snap.posY = m.posY)) →
      persistsPosition snap = false) := by
  have hw := u32AsI32_le m.sizeW
  have hh := u32AsI32_le m.sizeH
  refine ⟨?_, (closeState_pos snap).1, (closeState_pos snap).2, ?_⟩
  · intro hpp
    simp only [persistsPosition, hm, Bool.and_eq_true, Bool.not_eq_true',
      Monitor.contains, decide_eq_true_eq] at hpp
    exact ⟨hpp.2, by omega, by omega, by omega, by omega⟩
  · intro hedge
    simp only [persistsPosition, hm, Monitor.contains, Bool.and_eq_false_iff,
      decide_eq_false_iff_not, not_lt]
    rcases hedge with hx | hy | ⟨hx, hy⟩ <;> left <;> omega

/-- C5 witness: a non-maximized window with corner (100, 50) inside the
monitor at origin (0, 0) sized 1920×1080; the theorem's conclusions evaluated
there. -/
theorem C5_position_persistence_witness :
    ((closeState ⟨false, false, true, true, some ⟨0, 0, 1920, 1080, 1⟩,
        800, 600, 100, 50⟩).x =
      if persistsPosition ⟨false, false, true, true, some ⟨0, 0, 1920, 1080, 1⟩,
          800, 600, 100, 50⟩ then (100 : Int) else 0) ∧
    ((⟨false, false, true, true, some ⟨0, 0, 1920, 1080, 1⟩, 800, 600, (-1 : Int),
        0⟩ : Snapshot).posX = (0 : Int) - 1 ∧
      (⟨false, false, true, true, some ⟨0, 0, 1920, 1080, 1⟩, 800, 600, (-1 : Int),
          0⟩ : Snapshot).posY = (0 : Int) →
      persistsPosition ⟨false, false, true, true, some ⟨0, 0, 1920, 1080, 1⟩,
        800, 600, (-1 : Int), 0⟩ = false) :=
  ⟨(C5_position_persistence
      ⟨false, false, true, true, some ⟨0, 0, 1920, 1080, 1⟩, 800, 600, 100, 50⟩
      ⟨0, 0, 1920, 1080, 1⟩ rfl).2.1,
   fun h => (C5_position_persistence
      ⟨false, false, true, true, some ⟨0, 0, 1920, 1080, 1⟩, 800, 600, (-1 : Int), 0⟩
      ⟨0, 0, 1920, 1080, 1⟩ rfl).2.2.2 (Or.inr (Or.inr h))⟩

/-- C6 counterexample: with a persisted record carrying the zero-valued
default size (as written when size was suppressed at save time), the startup
reconciliation sets the window's logical inner size to (0, 0) — the persisted
non-positive size is applied verbatim, not replaced by the config default
(800, 600). -/
theorem C6_no_size_fallback_counterexample :
    (reconcile (some ⟨0, 0, 0, 0, false, true, true, false⟩)
        ⟨800, 600, false⟩ none).setInnerSize = ((0 : ℚ), (0 : ℚ)) ∧
    ((0 : ℚ), (0 : ℚ)) ≠ ((800 : ℚ), (600 : ℚ)) :=
  ⟨rfl, by decide⟩

/-- C6 (amended): when persisted state exists, the reconciler applies the
persisted width/height to the window unconditionally — there is no defensive
fallback for non-positive persisted sizes; config default sizes are used only
when no persisted state exists. -/
theorem C6_reconciler_size_unconditional (st : WindowState) (cfg : ConfigWindow)
    (mon : Option Monitor) :
    (reconcile (some st) cfg mon).setInnerSize = (st.width, st.height) ∧
    (reconcile none cfg mon).setInnerSize = (cfg.width, cfg.height) :=
  ⟨rfl, rfl⟩

/-- C7 counterexample: persisted state with `fullscreen = true` and an
undeterminable current monitor still produces a borderless-fullscreen request
(`set_fullscreen(Some(Borderless(None)))`, the platform picks the monitor) —
not windowed mode, which would be `setFullscreen = none`. -/
theorem C7_no_windowed_fallback_counterexample :
    (reconcile (some ⟨800, 600, 100, 50, false, true, true, true⟩)
        ⟨800, 600, false⟩ none).setFullscreen = some (.borderless none) ∧
    some (FullscreenArg.borderless none) ≠ (none : Option FullscreenArg) :=
  ⟨rfl, by decide⟩

/-- C7 (amended): the startup fullscreen decision honors the persisted flag
when state exists and the config flag otherwise, and every fullscreen request
is borderless fullscreen carrying the window's current monitor as queried —
possibly absent, in which case the request still enters fullscreen with the
platform choosing the monitor rather than falling back to windowed mode. -/
theorem C7_fullscreen_decision (st : WindowState) (cfg : ConfigWindow)
    (mon : Option Monitor) :
    ((reconcile (some st) cfg mon).setFullscreen ≠ none ↔ st.fullscreen = true) ∧
    ((reconcile none cfg mon).setFullscreen ≠ none ↔ cfg.fullscreen = true) ∧
    ((reconcile (some st) cfg mon).setFullscreen = none ∨
      (reconcile (some st) cfg mon).setFullscreen = some (.borderless mon)) ∧
    ((reconcile none cfg mon).setFullscreen = none ∨
      (reconcile none cfg mon).setFullscreen = some (.borderless mon)) := by
  cases hf : st.fullscreen <;> cases hc : cfg.fullscreen <;>
    simp [reconcile, hf, hc]

/-- C8 counterexample: when the platform downloads directory cannot be
resolved, the download-start callback hits `download_dir().unwrap()` and
panics — a process-aborting failure, not one scoped to the single download
request. -/
theorem C8_downloads_dir_panic_counterexample :
    download_started none "https://example.com/file.bin" "file.bin" true =
      .panicked "called Option::unwrap on a None value" := rfl

/-- C8 (amended): an unresolvable downloads directory makes the callback
panic, aborting the process; when the directory resolves, the callback
rewrites the destination to the joined path and relays the start event, the
send result being swallowed into the returned flag. -/
theorem C8_download_started_behavior (uri defaultPath : String)
    (sendSucceeds : Bool) :
    download_started none uri defaultPath sendSucceeds =
      .panicked "called Option::unwrap on a None value" ∧
    (∀ dir, download_started (some dir) uri defaultPath sendSucceeds =
      .resolved (joinPath dir defaultPath) (uri, joinPath dir defaultPath)
        sendSucceeds) :=
  ⟨rfl, fun _ => rfl⟩

/-- C9 counterexample: for the request
`"open_browser:open_browser:https://example.com"` the handler opens
`"https://example.com"` — `replace` strips every occurrence of the pattern —
whereas the remainder after the prefix is
`"open_browser:https://example.com"`; moreover `"open_browserX"`, which does
not carry the claimed `"open_browser:"` prefix, is not ignored. -/
theorem C9_replace_all_counterexample :
    handler false true "open_browser:open_browser:https://example.com" =
      .openBrowser "https://example.com" ∧
    ("https://example.com" : String) ≠ "open_browser:https://example.com" ∧
    handler false true "open_browserX" = .openBrowser "open_browserX" := by
  refine ⟨by decide, by decide, by decide⟩

/-- C9 (amended): any request that is none of `"drag_window"`,
`"fullscreen"`, and does not start with `"open_browser"` (colonless prefix
test) is ignored; a request starting with `"open_browser"` launches the
browser on the request with every occurrence of `"open_browser:"` removed —
equal to the remainder after the prefix only when the remainder contains no
further occurrence — and panics (`expect("no browser")`) when no browser can
be launched. -/
theorem C9_ipc_dispatch (isMax bOk : Bool) (req : String)
    (h1 : req ≠ "drag_window") (h2 : req ≠ "fullscreen") :
    (rustStartsWith req "open_browser" = true →
      handler isMax bOk req =
        if bOk then .openBrowser (rustReplace req "open_browser:" "")
        else .panicked "no browser") ∧
    (rustStartsWith req "open_browser" = false →
      handler isMax bOk req = .ignored) := by
  constructor <;> intro h <;> simp [handler, h1, h2, h]

/-- C9 witness: the dispatch evaluated on a well-formed open-browser request
and on an unrecognized request. -/
theorem C9_ipc_dispatch_witness :
    handler false true "open_browser:https://example.com" =
      (if true then
        IpcEffect.openBrowser
          (rustReplace "open_browser:https://example.com" "open_browser:" "")
      else .panicked "no browser") ∧
    handler false true "hello" = .ignored :=
  ⟨(C9_ipc_dispatch false true "open_browser:https://example.com"
      (by decide) (by decide)).1 (by decide),
   (C9_ipc_dispatch false true "hello" (by decide) (by decide)).2 (by decide)⟩

/-- C10: the four mode flags of every record the close handler writes equal
the live window's queried values, unconditionally — the bounds-policy
suppression touches only width, height, x and y, so a maximized or off-monitor
window still has its true flags persisted. -/
theorem C10_mode_flags_always_live (snap : Snapshot) :
    (closeState snap).maximized = snap.isMaximized ∧
    (closeState snap).fullscreen = snap.isFullscreen ∧
    (closeState snap).decorated = snap.isDecorated ∧
    (closeState snap).visible = snap.isVisible := by
  obtain ⟨mH, fH, dH, vH, mon, w, h, px, py⟩ := snap
  simp only [closeState]
  cases mon <;> dsimp only <;> split_ifs <;> simp [WindowState.defaultState]

end Pake
